import Mathlib

/-
  Verification development for the iorap on-device prefetch core.

  Shallow embedding of:
  - src/src/perfetto/perfetto_consumer.cc   (tracing-session lifecycle tracker)
  - src/src/maintenance/controller.cc       (maintenance compilation controller)
  - src/src/binder/package_version_map.cc   (package-version cache)

  Conventions: machine integers are Int/Nat; process aborts (LOG(FATAL),
  CHECK failures) are modelled as Option with none meaning abort; external
  collaborators (filesystem, database rows, fork/waitpid results, the raw
  tracing engine) are inputs threaded through environment records, exactly
  one field per external call site in the source.
-/

namespace Iorap

/- ===================== Perfetto consumer tracker ===================== -/

/-- Handles are int64 in the source; the engine issues them starting at 1. -/
abbrev Handle := Int

/-- Modelled from the spec: the sentinel value of the untracked invalid handle
comes from the perfetto consumer header, which is not under src; the spec
states engine handles are strictly monotonically increasing starting at 1,
so the never-issued sentinel is 0 (the zero-initialized counter value). -/
def kInvalidHandle : Handle := 0

/-- StateKind from perfetto_consumer.cc lines 37-44. -/
inductive StateKind
  | kUncreated
  | kCreated
  | kStartedTracing
  | kReadTracing
  | kTimedOutDestroyed
  | kDestroyed
deriving DecidableEq, Repr

/-- HandleDescription from perfetto_consumer.cc lines 88-96. The perfetto
engine state (State) is kept as an abstract Int delivered by the PollState
environment parameter. -/
structure HandleDescription where
  handle : Handle
  kind : StateKind
  state : Int
  startedTracingNs : Option Nat
  lastTransitionNs : Nat
deriving DecidableEq, Repr

/-- The C++ local declaration HandleDescription state is modelled as
zero-initialization: kind is the first enumerator kUncreated, the handle is
the zero sentinel. -/
def HandleDescription.default : HandleDescription :=
  { handle := kInvalidHandle
    kind := StateKind.kUncreated
    state := 0
    startedTracingNs := none
    lastTransitionNs := 0 }

/-- Impl::UpdateHandleDescription (lines 230-239): sets the kind, refreshes
the engine state via PollState (the pollState argument), stamps the
transition time, and records started_tracing_ns on kStartedTracing. -/
def updateHandleDescription (desc : HandleDescription) (kind : StateKind)
    (pollState : Int) (now : Nat) : HandleDescription :=
  let desc := { desc with kind := kind, state := pollState, lastTransitionNs := now }
  if kind = StateKind.kStartedTracing then
    { desc with startedTracingNs := some now }
  else
    desc

/-- The tracked map states_ plus the two counters (lines 107-111).
std::map is modelled as an association list with unique keys. -/
structure TrackerState where
  states : List (Handle × HandleDescription)
  lastCreated : Handle
  lastDestroyed : Handle
deriving DecidableEq, Repr

def TrackerState.initial : TrackerState :=
  { states := [], lastCreated := 0, lastDestroyed := 0 }

/-- states_.find(handle), as an Option lookup. -/
def findState (s : TrackerState) (h : Handle) : Option HandleDescription :=
  (s.states.find? (fun p => p.1 == h)).map (fun p => p.2)

/-- Impl::Create (lines 116-142). The engine-returned handle is the
engineHandle argument. Both CHECK failures (non-monotonic handle, handle
re-use) abort the process: none. On success, returns the handle and the
state with the new entry recorded via UpdateHandleDescription kCreated. -/
def TrackerState.create (s : TrackerState) (engineHandle : Handle)
    (pollState : Int) (now : Nat) : Option (Handle × TrackerState) :=
  let lastCreated := s.lastCreated + 1
  if engineHandle ≠ lastCreated then
    none
  else if (findState s engineHandle).isSome then
    none
  else
    let desc := updateHandleDescription
      { HandleDescription.default with handle := engineHandle }
      StateKind.kCreated pollState now
    some (engineHandle,
      { s with states := (engineHandle, desc) :: s.states, lastCreated := lastCreated })

/-- Impl::StartTracing (lines 144-160): untracked handle is a logged no-op;
otherwise the entry transitions to kStartedTracing. -/
def TrackerState.startTracing (s : TrackerState) (h : Handle)
    (pollState : Int) (now : Nat) : TrackerState :=
  match findState s h with
  | none => s
  | some desc =>
    let desc := updateHandleDescription desc StateKind.kStartedTracing pollState now
    { s with states := s.states.map (fun p => if p.1 == h then (p.1, desc) else p) }

/-- Impl::ReadTrace (lines 162-179): untracked handle returns an empty
buffer and leaves the state unchanged; otherwise transitions to
kReadTracing (the returned trace buffer is outside the model). -/
def TrackerState.readTrace (s : TrackerState) (h : Handle)
    (pollState : Int) (now : Nat) : TrackerState :=
  match findState s h with
  | none => s
  | some desc =>
    let desc := updateHandleDescription desc StateKind.kReadTracing pollState now
    { s with states := s.states.map (fun p => if p.1 == h then (p.1, desc) else p) }

/-- Impl::Destroy (lines 181-201): untracked handle is a lenient no-op.
For a tracked handle the entry is transitioned to kDestroyed and then
erased (the updated record is unobservable afterwards), and last_destroyed_
is unconditionally assigned the destroyed handle. -/
def TrackerState.destroy (s : TrackerState) (h : Handle) : TrackerState :=
  if (findState s h).isSome then
    { s with states := s.states.filter (fun p => p.1 != h), lastDestroyed := h }
  else
    s

/-- Impl::IsDestroyed (lines 245-276). The branches after the untracked
early return re-test the same iterator and are unreachable; only the
reachable returns are modelled. -/
def TrackerState.isDestroyed (s : TrackerState) (h : Handle) : Bool :=
  if (findState s h).isSome then
    false
  else if h == kInvalidHandle then
    false
  else
    decide (h ≤ s.lastDestroyed)

/-- Impl::IsUncreated (lines 278-310). Same unreachable-branch remark as
for IsDestroyed; the reachable comparison is against last_destroyed_. -/
def TrackerState.isUncreated (s : TrackerState) (h : Handle) : Bool :=
  if (findState s h).isSome then
    false
  else if h == kInvalidHandle then
    true
  else
    decide (s.lastDestroyed < h)

/-- Impl::GetOrInferHandleDescription (lines 210-227): tracked handles
return their record; untracked handles return a default-initialized record,
upgraded to kDestroyed when IsDestroyed holds (a bad-state warning is
logged when neither IsDestroyed nor IsUncreated holds; logging is outside
the returned value). -/
def TrackerState.getOrInferHandleDescription (s : TrackerState) (h : Handle)
    (pollState : Int) (now : Nat) : HandleDescription :=
  match findState s h with
  | some desc => desc
  | none =>
    if s.isDestroyed h then
      updateHandleDescription HandleDescription.default StateKind.kDestroyed pollState now
    else
      HandleDescription.default

/- Concrete operation sequence used for the untracked-handle claims:
create handles 1, 2, 3, then destroy 3 followed by destroy 2 (destruction
out of creation order). -/

def threeCreatedScenario : Option TrackerState :=
  (TrackerState.initial.create 1 0 0).bind (fun p =>
    (p.2.create 2 0 0).bind (fun q =>
      (q.2.create 3 0 0).map (fun r => r.2)))

def afterDestroyThree : Option TrackerState :=
  threeCreatedScenario.map (fun s => s.destroy 3)

def outOfOrderDestroyScenario : Option TrackerState :=
  afterDestroyThree.map (fun s => s.destroy 2)

/- ===================== Maintenance compilation controller ===================== -/

/-- std::numeric_limits of uint64_t, max(). -/
def uint64Max : Nat := 2 ^ 64 - 1

/-- db::AppLaunchHistoryModel, restricted to the fields read by the
controller: the row id and the two optional timing fields. -/
structure AppLaunchHistoryModel where
  id : Int
  reportFullyDrawnNs : Option Nat
  totalTimeNs : Option Nat
deriving DecidableEq, Repr

/-- db::RawTraceModel, restricted to the field read by the controller. -/
structure RawTraceModel where
  filePath : String
deriving DecidableEq, Repr

/-- compiler::CompilationInput. -/
structure CompilationInput where
  filename : String
  timestampLimitNs : Nat
deriving DecidableEq, Repr

/-- GetPerfettoTraceInfo (controller.cc lines 166-193). The db handle is
modelled by the query function selectRawTraceByHistoryId standing for
db::RawTraceModel::SelectByHistoryId. A history with no raw-trace row is
skipped; timestamp_limit starts at the uint64 max and is overwritten by
report_fully_drawn_ns, else total_time_ns, when set. -/
def getPerfettoTraceInfo (selectRawTraceByHistoryId : Int → Option RawTraceModel) :
    List AppLaunchHistoryModel → List CompilationInput
  | [] => []
  | history :: rest =>
    match selectRawTraceByHistoryId history.id with
    | none => getPerfettoTraceInfo selectRawTraceByHistoryId rest
    | some rawTrace =>
      let timestampLimit :=
        match history.reportFullyDrawnNs with
        | some t => t
        | none =>
          match history.totalTimeNs with
          | some t => t
          | none => uint64Max
      { filename := rawTrace.filePath, timestampLimitNs := timestampLimit }
        :: getPerfettoTraceInfo selectRawTraceByHistoryId rest

/-- The effective timestamp limit in the words of the spec (section 4.4
step 4): report_fully_drawn_ns when set, else total_time_ns when set, else
the maximum representable 64-bit unsigned value. Stated separately from
getPerfettoTraceInfo so the code-side loop can be compared against it. -/
def effectiveTimestampLimit (history : AppLaunchHistoryModel) : Nat :=
  match history.reportFullyDrawnNs with
  | some t => t
  | none =>
    match history.totalTimeNs with
    | some t => t
    | none => uint64Max

/-- ControllerParameters (fields read by controller.cc; the exec
indirection is modelled by the fork/exec fields of ActivityCompileEnv). -/
structure ControllerParameters where
  recompile : Bool
  minTraces : Nat
  outputText : Bool
  inodeTextcache : Option String
  verbose : Bool
deriving DecidableEq, Repr

/-- LastJobInfo (controller.cc lines 46-49). -/
structure LastJobInfo where
  lastRunNs : Nat
  activitiesLastCompiled : Nat
deriving DecidableEq, Repr

/-- The observable side effects of a compile pass: the process-global
LastJobInfo record, the number of compiler children forked, and the
PrefetchFileModel rows inserted (activity_id, file_path). -/
structure World where
  jobInfo : LastJobInfo
  spawnedCompiles : Nat
  insertedPrefetchFiles : List (Int × String)
deriving DecidableEq, Repr

def World.initial : World :=
  { jobInfo := { lastRunNs := 0, activitiesLastCompiled := 0 }
    spawnedCompiles := 0
    insertedPrefetchFiles := [] }

/-- WTERMSIG(s) = s AND 0x7f, over the raw waitpid status word. -/
def wtermsig (wstatus : Nat) : Nat := wstatus.land 0x7f

/-- WIFEXITED(s): normal exit means the termination-signal bits are zero. -/
def wifexited (wstatus : Nat) : Bool := wtermsig wstatus == 0

/-- WEXITSTATUS(s) = (s AND 0xff00) shifted right by 8. -/
def wexitstatus (wstatus : Nat) : Nat := (wstatus.land 0xff00) >>> 8

/-- Modelled from the spec: db::CompiledTraceFileModel::CalculateNewestFilePath
lives in db/models, which is not under src; the spec (section 3 invariant 3
and section 6) only requires the path to be a pure deterministic function of
the (package_name, activity_name, version) triple. -/
def calculateNewestFilePath (packageName activityName : String) (version : Int) : String :=
  packageName ++ "/" ++ activityName ++ "@" ++ toString version

/-- The external inputs consumed by one CompileActivity run, one field per
external call site: filesystem existence of the output path, the
ActivityModel::SelectByNameAndPackageId result (as the activity row id),
the SelectActivityHistoryForCompile rows, the raw-trace query, the
MkdirWithParents outcome, the Exec::Fork outcome, the waitpid status word
of the child, and the PrefetchFileModel::Insert outcome. -/
structure ActivityCompileEnv where
  outputFileExists : Bool
  selectActivity : Option Int
  histories : List AppLaunchHistoryModel
  selectRawTraceByHistoryId : Int → Option RawTraceModel
  mkdirOk : Bool
  forkOk : Bool
  childWstatus : Nat
  insertOk : Bool

/-- StartViaFork (controller.cc lines 127-163), seen from the parent:
fork failure is LOG(FATAL), an abort (none); otherwise the child is
spawned, waitpid is performed, and the result is false exactly when the
child did not exit normally — the exit status of a normal exit is only
logged, never tested. -/
def startViaFork (env : ActivityCompileEnv) (w : World) : Option (Bool × World) :=
  if !env.forkOk then
    none
  else
    let w := { w with spawnedCompiles := w.spawnedCompiles + 1 }
    if !wifexited env.childWstatus then
      some (false, w)
    else
      some (true, w)

/-- CompileActivity (controller.cc lines 219-306). Mirrors the source
control flow: existing-output short-circuit, activity lookup, history
selection, evidence threshold, LastJobInfo increment, mkdir, fork+wait,
PrefetchFileModel insert. -/
def compileActivity (params : ControllerParameters) (packageId : Int)
    (packageName activityName : String) (version : Int)
    (env : ActivityCompileEnv) (w : World) : Option (Bool × World) :=
  let filePath := calculateNewestFilePath packageName activityName version
  if !params.recompile && env.outputFileExists then
    some (true, w)
  else
    match env.selectActivity with
    | none => some (false, w)
    | some activityId =>
      let perfettoTraces := getPerfettoTraceInfo env.selectRawTraceByHistoryId env.histories
      if perfettoTraces.length < params.minTraces then
        some (false, w)
      else
        let w := { w with jobInfo :=
          { w.jobInfo with activitiesLastCompiled := w.jobInfo.activitiesLastCompiled + 1 } }
        if !env.mkdirOk then
          some (false, w)
        else
          match startViaFork env w with
          | none => none
          | some (ok, w) =>
            if !ok then
              some (false, w)
            else if !env.insertOk then
              some (false, w)
            else
              some (true, { w with
                insertedPrefetchFiles := (activityId, filePath) :: w.insertedPrefetchFiles })

/-- The external inputs of one CompilePackage run: the
PackageModel::SelectByNameAndVersion result (as the package row id) and,
per activity row returned by ActivityModel::SelectByPackageId, the activity
name together with its CompileActivity environment. -/
structure PackageCompileEnv where
  selectPackage : Option Int
  activities : List (String × ActivityCompileEnv)

/-- The activity loop of CompilePackage (lines 331-336): per-activity
results are aggregated with boolean AND and the loop continues past
failures; an abort inside an activity aborts the pass. -/
def compileActivitiesLoop (params : ControllerParameters) (packageId : Int)
    (packageName : String) (version : Int) :
    List (String × ActivityCompileEnv) → Bool → World → Option (Bool × World)
  | [], ret, w => some (ret, w)
  | (activityName, env) :: rest, ret, w =>
    match compileActivity params packageId packageName activityName version env w with
    | none => none
    | some (ok, w) =>
      compileActivitiesLoop params packageId packageName version rest (ret && ok) w

/-- CompilePackage (controller.cc lines 309-338). -/
def compilePackage (params : ControllerParameters) (packageName : String)
    (version : Int) (env : PackageCompileEnv) (w : World) : Option (Bool × World) :=
  match env.selectPackage with
  | none => some (false, w)
  | some packageId =>
    compileActivitiesLoop params packageId packageName version env.activities true w

/-- One row of PackageModel::SelectAll together with the environment of the
CompilePackage call made for it. -/
structure DevicePackage where
  name : String
  version : Int
  env : PackageCompileEnv

/-- The package loop of CompileAppsOnDevice (lines 348-353). -/
def compilePackagesLoop (params : ControllerParameters) :
    List DevicePackage → Bool → World → Option (Bool × World)
  | [], ret, w => some (ret, w)
  | p :: rest, ret, w =>
    match compilePackage params p.name p.version p.env w with
    | none => none
    | some (ok, w) => compilePackagesLoop params rest (ret && ok) w

/-- CompileAppsOnDevice (controller.cc lines 341-361): zero the
activities counter under the job-info lock, compile every package, then
stamp last_run_ns with the current time (the now argument) regardless of
the aggregate result. -/
def compileAppsOnDevice (params : ControllerParameters)
    (packages : List DevicePackage) (now : Nat) (w : World) : Option (Bool × World) :=
  let w := { w with jobInfo := { w.jobInfo with activitiesLastCompiled := 0 } }
  match compilePackagesLoop params packages true w with
  | none => none
  | some (ret, w) =>
    some (ret, { w with jobInfo := { w.jobInfo with lastRunNs := now } })

/-- The per-activity Compile entry point (controller.cc lines 378-397):
resolve the package by (name, version); failure when absent, otherwise
delegate to CompileActivity. The selectPackage argument stands for the
PackageModel::SelectByNameAndVersion result. -/
def compileSingleActivityEntry (params : ControllerParameters)
    (packageName activityName : String) (version : Int)
    (selectPackage : Option Int) (env : ActivityCompileEnv) (w : World) :
    Option (Bool × World) :=
  match selectPackage with
  | none => some (false, w)
  | some packageId =>
    compileActivity params packageId packageName activityName version env w

/-- Spec-side characterization for the activities counter: a CompileActivity
run passes the evidence gate when the existing-output short-circuit is not
taken, the activity row resolves, and the CompilationInput count is not
below min_traces. -/
def evidencePassAttempted (params : ControllerParameters) (env : ActivityCompileEnv) : Bool :=
  !(!params.recompile && env.outputFileExists) && env.selectActivity.isSome &&
    !decide ((getPerfettoTraceInfo env.selectRawTraceByHistoryId env.histories).length
      < params.minTraces)

/-- Number of activities of one package whose compile passes the evidence
gate; zero when the package row does not resolve. -/
def attemptedCountPackage (params : ControllerParameters) (env : PackageCompileEnv) : Nat :=
  match env.selectPackage with
  | none => 0
  | some _ => (env.activities.filter (fun a => evidencePassAttempted params a.2)).length

/-- Number of activities across a device-wide pass whose compile passes the
evidence gate. -/
def attemptedCountDevice (params : ControllerParameters)
    (packages : List DevicePackage) : Nat :=
  (packages.map (fun p => attemptedCountPackage params p.env)).sum

/- ===================== Package version map ===================== -/

/-- PackageVersionMap::GetOrQueryPackageVersion (package_version_map.cc
lines 44-65). The remote package manager is the getPackageVersion
argument; the hash map is an association list with unique keys. Returns
the version result, the updated map, and whether the remote was consulted. -/
def vmFind (versionMap : List (String × Int)) (packageName : String) : Option Int :=
  (versionMap.find? (fun p => p.1 == packageName)).map (fun p => p.2)

def getOrQueryPackageVersion (getPackageVersion : String → Option Int)
    (versionMap : List (String × Int)) (packageName : String) :
    Int × List (String × Int) × Bool :=
  match vmFind versionMap packageName with
  | none =>
    match getPackageVersion packageName with
    | some version => (version, (packageName, version) :: versionMap, true)
    | none => (-1, versionMap, true)
  | some version => (version, versionMap, false)

/- ===================== Dump surfaces ===================== -/

/-- The alphabet of lines printed by Impl::Dump (perfetto_consumer.cc lines
313-343), one constructor per printFormatLine template. The
possibleDeadlock constructor is the annotation the spec asks for; whether
the dump ever emits it is settled by the theorems. -/
inductive PerfettoDumpLine
  | header
  | lastDestroyedHandle (h : Handle)
  | lastCreatedHandle (h : Handle)
  | blank
  | inFlightHeader
  | handleLine (h : Handle)
  | kindLine (k : StateKind)
  | perfettoState (s : Int)
  | startedTracingAt (ns : Nat)
  | lastTransitionAt (ns : Nat)
  | noneLine
  | possibleDeadlock
deriving DecidableEq, Repr

/-- Impl::Dump (lines 313-343): a best-effort try_lock is taken; the
tryLockOk argument is its outcome, whose only use in the source is whether
to unlock at the end — the report body is printed either way. -/
def perfettoConsumerDump (s : TrackerState) (tryLockOk : Bool) : List PerfettoDumpLine :=
  [PerfettoDumpLine.header,
   PerfettoDumpLine.lastDestroyedHandle s.lastDestroyed,
   PerfettoDumpLine.lastCreatedHandle s.lastCreated,
   PerfettoDumpLine.blank,
   PerfettoDumpLine.inFlightHeader]
  ++ (s.states.flatMap (fun p =>
      [PerfettoDumpLine.handleLine p.2.handle,
       PerfettoDumpLine.kindLine p.2.kind,
       PerfettoDumpLine.perfettoState p.2.state,
       PerfettoDumpLine.startedTracingAt (p.2.startedTracingNs.getD 0),
       PerfettoDumpLine.lastTransitionAt p.2.lastTransitionNs]))
  ++ (if s.states.isEmpty then [PerfettoDumpLine.noneLine] else [])
  ++ [PerfettoDumpLine.blank]

/-- The alphabet of lines printed by maintenance Dump (controller.cc lines
517-542), one constructor per print template of the job-info section. -/
inductive ControllerDumpLine
  | backgroundJobHeader
  | possibleDeadlock
  | lastRunAt (t : Nat)
  | lastRunNone
  | activitiesLastCompiled (n : Nat)
  | blank
deriving DecidableEq, Repr

/-- Maintenance Dump (controller.cc lines 517-542): try_lock the job-info
mutex, print the header, annotate possible deadlock exactly when the
try_lock failed, then print the job info read best-effort and append the
DumpAllPackages report (the allPackagesReport argument, which does not
touch the job-info mutex). -/
def controllerDump (info : LastJobInfo) (tryLockOk : Bool)
    (allPackagesReport : List ControllerDumpLine) : List ControllerDumpLine :=
  [ControllerDumpLine.backgroundJobHeader]
  ++ (if !tryLockOk then [ControllerDumpLine.possibleDeadlock] else [])
  ++ (if info.lastRunNs ≠ 0 then [ControllerDumpLine.lastRunAt info.lastRunNs]
      else [ControllerDumpLine.lastRunNone])
  ++ [ControllerDumpLine.activitiesLastCompiled info.activitiesLastCompiled,
      ControllerDumpLine.blank]
  ++ allPackagesReport

/- ===================== Theorems ===================== -/

/-- C3: on every tracker Create, a handle that is not last_created + 1
makes the implementation abort (the CHECK_EQ fatal check, modelled as
none); when the check passes the returned handle is the engine handle and
it is recorded in the tracked map in kind kCreated. The freshness
hypothesis (last_created + 1 not already tracked) holds in every reachable
state because Create is the sole insertion path. -/
theorem create_monotonic_handle_check (s : TrackerState) (h : Handle)
    (p : Int) (n : Nat)
    (hfresh : findState s (s.lastCreated + 1) = none) :
    (s.create h p n = none ↔ h ≠ s.lastCreated + 1)
    ∧ (∀ r s2, s.create h p n = some (r, s2) →
        r = h ∧ (findState s2 h).map HandleDescription.kind = some StateKind.kCreated) := by
  unfold TrackerState.create
  by_cases hh : h = s.lastCreated + 1
  · subst hh
    rw [hfresh]
    simp only [ne_eq, not_true_eq_false, if_false, Option.isSome_none, Bool.false_eq_true,
      ite_false, ite_true, if_neg]
    constructor
    · simp
    · intro r s2 hsome
      injection hsome with hpair
      injection hpair with hr hs2
      subst hr
      subst hs2
      refine ⟨rfl, ?_⟩
      simp [findState, List.find?, updateHandleDescription]
  · rw [if_pos hh]
    constructor
    · simp [hh]
    · intro r s2 hsome
      exact absurd hsome (by simp)

/-- Witness for create_monotonic_handle_check at the initial tracker state
and engine handle 1. -/
theorem create_monotonic_handle_check_witness :
    (TrackerState.initial.create 1 0 0 = none ↔
      (1 : Int) ≠ TrackerState.initial.lastCreated + 1)
    ∧ (∀ r s2, TrackerState.initial.create 1 0 0 = some (r, s2) →
        r = 1 ∧ (findState s2 1).map HandleDescription.kind = some StateKind.kCreated) :=
  create_monotonic_handle_check TrackerState.initial 1 0 0 (by decide)

/-- C2 (amended): for every untracked handle h, GetOrInferHandleDescription
classifies h as kDestroyed if and only if h is not the invalid sentinel and
h is at most last_destroyed, classifies it as kUncreated if and only if h
is the invalid sentinel or h exceeds last_destroyed (not last_created), and
never classifies it as both. -/
theorem untracked_handle_classification (s : TrackerState) (h : Handle)
    (p : Int) (n : Nat) (huntracked : findState s h = none) :
    ((s.getOrInferHandleDescription h p n).kind = StateKind.kDestroyed ↔
      (h ≠ kInvalidHandle ∧ h ≤ s.lastDestroyed))
    ∧ ((s.getOrInferHandleDescription h p n).kind = StateKind.kUncreated ↔
      (h = kInvalidHandle ∨ s.lastDestroyed < h))
    ∧ ¬((s.getOrInferHandleDescription h p n).kind = StateKind.kDestroyed ∧
        (s.getOrInferHandleDescription h p n).kind = StateKind.kUncreated) := by
  unfold TrackerState.getOrInferHandleDescription TrackerState.isDestroyed
  rw [huntracked]
  simp only [kInvalidHandle]
  by_cases h0 : h = 0 <;> by_cases hle : h ≤ s.lastDestroyed <;>
    simp [h0, hle, updateHandleDescription, HandleDescription.default] <;>
    try exact lt_of_not_le hle

/-- Witness for untracked_handle_classification: handle 5 on the initial
tracker state is untracked and classified kUncreated. -/
theorem untracked_handle_classification_witness :
    ((TrackerState.initial.getOrInferHandleDescription 5 0 0).kind = StateKind.kDestroyed ↔
      ((5 : Int) ≠ kInvalidHandle ∧ (5 : Int) ≤ TrackerState.initial.lastDestroyed))
    ∧ ((TrackerState.initial.getOrInferHandleDescription 5 0 0).kind = StateKind.kUncreated ↔
      ((5 : Int) = kInvalidHandle ∨ TrackerState.initial.lastDestroyed < 5))
    ∧ ¬((TrackerState.initial.getOrInferHandleDescription 5 0 0).kind = StateKind.kDestroyed ∧
        (TrackerState.initial.getOrInferHandleDescription 5 0 0).kind = StateKind.kUncreated) :=
  untracked_handle_classification TrackerState.initial 5 0 0 (by decide)

/-- C2 counterexample: after create 1, create 2, create 3, destroy 3,
destroy 2, handle 3 is untracked and classified kUncreated although
3 > last_created fails (last_created = 3), refuting the Uncreated clause
as stated; and on the initial state the invalid handle 0 satisfies
0 ≤ last_destroyed yet is classified kUncreated, not kDestroyed, refuting
the Destroyed clause as stated. -/
theorem untracked_handle_classification_vs_last_created :
    (outOfOrderDestroyScenario.map (fun s =>
      (decide (findState s 3 = none),
       (s.getOrInferHandleDescription 3 0 0).kind,
       decide (s.lastCreated < 3),
       decide ((3 : Int) ≤ s.lastDestroyed)))
      = some (true, StateKind.kUncreated, false, false))
    ∧ ((TrackerState.initial.getOrInferHandleDescription kInvalidHandle 0 0).kind
        = StateKind.kUncreated
      ∧ decide (kInvalidHandle ≤ TrackerState.initial.lastDestroyed) = true
      ∧ findState TrackerState.initial kInvalidHandle = none) := by
  refine ⟨by decide, by decide, by decide, by decide⟩

/-- C10: Destroy of a tracked handle unconditionally assigns it to
last_destroyed (never a maximum), so the counter is not monotone: after
create 1, create 2, create 3, destroy 3, last_destroyed is 3; the further
destroy 2 lowers it to 2; thereafter the already-destroyed handle 3, which
exceeds last_destroyed, is classified kUncreated by the untracked-handle
classifier. -/
theorem destroy_last_destroyed_not_monotone :
    (∀ (s : TrackerState) (h : Handle),
      (s.destroy h).lastDestroyed =
        if (findState s h).isSome then h else s.lastDestroyed)
    ∧ (afterDestroyThree.map (fun s => s.lastDestroyed) = some 3)
    ∧ (outOfOrderDestroyScenario.map (fun s => s.lastDestroyed) = some 2)
    ∧ ((2 : Int) < 3)
    ∧ (outOfOrderDestroyScenario.map (fun s =>
        ((s.getOrInferHandleDescription 3 0 0).kind, decide (s.lastDestroyed < 3)))
        = some (StateKind.kUncreated, true)) := by
  refine ⟨?_, by decide, by decide, by decide, by decide⟩
  intro s h
  unfold TrackerState.destroy
  by_cases hc : (findState s h).isSome
  · simp [hc]
  · simp [hc]

/-- C4: turning launch histories into CompilationInput values drops every
history with no raw-trace row and gives each surviving history the
effective timestamp limit of the spec: report_fully_drawn_ns when set
(even if total_time_ns is also set), else total_time_ns when set, else the
maximum representable 64-bit unsigned value. -/
theorem compilation_input_timestamps :
    (∀ (db : Int → Option RawTraceModel) (hs : List AppLaunchHistoryModel),
      getPerfettoTraceInfo db hs = hs.filterMap (fun history =>
        (db history.id).map (fun rt =>
          { filename := rt.filePath
            timestampLimitNs := effectiveTimestampLimit history })))
    ∧ (∀ (i : Int) (t u : Nat),
        effectiveTimestampLimit
          { id := i, reportFullyDrawnNs := some t, totalTimeNs := some u } = t)
    ∧ (∀ (i : Int) (u : Nat),
        effectiveTimestampLimit
          { id := i, reportFullyDrawnNs := none, totalTimeNs := some u } = u)
    ∧ (∀ (i : Int),
        effectiveTimestampLimit
          { id := i, reportFullyDrawnNs := none, totalTimeNs := none } = uint64Max) := by
  refine ⟨?_, fun i t u => rfl, fun i u => rfl, fun i => rfl⟩
  intro db hs
  induction hs with
  | nil => rfl
  | cons history rest ih =>
    simp only [getPerfettoTraceInfo, List.filterMap_cons]
    cases hdb : db history.id with
    | none => simpa using ih
    | some rt =>
      rw [ih]
      rfl

/-- C1 counterexample: the parent interpretation in StartViaFork returns
success for a child that exited normally with the non-zero status 1
(wstatus 256), where the claim requires per-activity failure. -/
def c1Env : ActivityCompileEnv :=
  { outputFileExists := false
    selectActivity := none
    histories := []
    selectRawTraceByHistoryId := fun _ => none
    mkdirOk := true
    forkOk := true
    childWstatus := 256
    insertOk := true }

theorem startViaFork_nonzero_exit_reports_success :
    wifexited 256 = true ∧ wexitstatus 256 = 1 ∧
    (startViaFork c1Env World.initial).map (fun r => r.1) = some true := by
  refine ⟨by decide, by decide, by decide⟩

/-- C1 (amended): the parent interpretation of the compiler child is: fork
failure aborts the process; otherwise the result is success exactly when
the child exited normally, irrespective of its exit status, which is only
logged. Abnormal termination is the only failure outcome. -/
theorem startViaFork_parent_interpretation (env : ActivityCompileEnv) (w : World) :
    (env.forkOk = false → startViaFork env w = none)
    ∧ (env.forkOk = true →
        startViaFork env w =
          some (wifexited env.childWstatus,
            { w with spawnedCompiles := w.spawnedCompiles + 1 })) := by
  constructor
  · intro hf
    simp [startViaFork, hf]
  · intro hf
    by_cases he : wifexited env.childWstatus <;> simp [startViaFork, hf, he]

/-- Witness for startViaFork_parent_interpretation: one environment with a
failed fork, one with a successful fork and a normally-exited child. -/
def c1EnvNoFork : ActivityCompileEnv :=
  { c1Env with forkOk := false }

theorem startViaFork_parent_interpretation_witness :
    startViaFork c1EnvNoFork World.initial = none
    ∧ startViaFork c1Env World.initial =
        some (wifexited c1Env.childWstatus,
          { World.initial with spawnedCompiles := World.initial.spawnedCompiles + 1 }) :=
  ⟨(startViaFork_parent_interpretation c1EnvNoFork World.initial).1 rfl,
   (startViaFork_parent_interpretation c1Env World.initial).2 rfl⟩

/-- C8: GetOrQueryPackageVersion returns the cached version without
consulting the remote when the name is cached; when absent it queries the
remote on demand, writes a successful result back (so a second query for
the same name hits the cache), and returns the sentinel -1 with the map
unchanged when the on-demand query yields nothing. -/
theorem get_or_query_package_version_contract
    (remote : String → Option Int) (m : List (String × Int)) (name : String) :
    (∀ v, vmFind m name = some v →
      getOrQueryPackageVersion remote m name = (v, m, false))
    ∧ (∀ v, vmFind m name = none → remote name = some v →
      getOrQueryPackageVersion remote m name = (v, (name, v) :: m, true)
      ∧ getOrQueryPackageVersion remote ((name, v) :: m) name
          = (v, (name, v) :: m, false))
    ∧ (vmFind m name = none → remote name = none →
      getOrQueryPackageVersion remote m name = (-1, m, true)) := by
  refine ⟨?_, ?_, ?_⟩
  · intro v hv
    simp [getOrQueryPackageVersion, hv]
  · intro v hnone hrem
    constructor
    · simp [getOrQueryPackageVersion, hnone, hrem]
    · simp [getOrQueryPackageVersion, vmFind, List.find?]
  · intro hnone hrem
    simp [getOrQueryPackageVersion, hnone, hrem]

/-- Witness for get_or_query_package_version_contract: cache of one entry,
remote that knows one more package. -/
theorem get_or_query_package_version_contract_witness :
    (getOrQueryPackageVersion
        (fun s => if s == "other" then some 2 else none) [("pkg", 1)] "pkg"
      = (1, [("pkg", 1)], false))
    ∧ (getOrQueryPackageVersion
        (fun s => if s == "other" then some 2 else none) [("pkg", 1)] "other"
      = (2, [("other", 2), ("pkg", 1)], true))
    ∧ (getOrQueryPackageVersion
        (fun s => if s == "other" then some 2 else none) [("other", 2), ("pkg", 1)] "other"
      = (2, [("other", 2), ("pkg", 1)], false))
    ∧ (getOrQueryPackageVersion
        (fun s => if s == "other" then some 2 else none) [("pkg", 1)] "gone"
      = (-1, [("pkg", 1)], true)) := by
  have hq := get_or_query_package_version_contract
    (fun s => if s == "other" then some 2 else none) [("pkg", 1)] "pkg"
  have ho := get_or_query_package_version_contract
    (fun s => if s == "other" then some 2 else none) [("pkg", 1)] "other"
  have hg := get_or_query_package_version_contract
    (fun s => if s == "other" then some 2 else none) [("pkg", 1)] "gone"
  refine ⟨hq.1 1 (by decide), (ho.2.1 2 (by decide) (by decide)).1,
    (ho.2.1 2 (by decide) (by decide)).2, hg.2.2 (by decide) (by decide)⟩

/-- C9 counterexample: the tracking-session tracker dump, with the
try-lock failing, emits the report without any possible-deadlock line; its
output is identical to the output under a successful try-lock, and the
entries (here the last-created counter line) are still emitted. -/
theorem tracker_dump_has_no_deadlock_line :
    PerfettoDumpLine.possibleDeadlock ∉ perfettoConsumerDump TrackerState.initial false
    ∧ perfettoConsumerDump TrackerState.initial false
        = perfettoConsumerDump TrackerState.initial true
    ∧ PerfettoDumpLine.lastCreatedHandle TrackerState.initial.lastCreated
        ∈ perfettoConsumerDump TrackerState.initial false := by
  refine ⟨by decide, by decide, by decide⟩

/-- C9 (amended): both dump surfaces take a non-blocking try-lock and emit
their report best-effort whether or not the lock was obtained; the
compilation controller dump annotates possible deadlock exactly when its
try-lock fails, while the tracker dump emits no such annotation and its
output does not depend on the try-lock outcome. -/
theorem dump_try_lock_behavior (info : LastJobInfo) (b : Bool)
    (rep : List ControllerDumpLine) (s : TrackerState)
    (hrep : ControllerDumpLine.possibleDeadlock ∉ rep) :
    (ControllerDumpLine.possibleDeadlock ∈ controllerDump info b rep ↔ b = false)
    ∧ ControllerDumpLine.activitiesLastCompiled info.activitiesLastCompiled
        ∈ controllerDump info b rep
    ∧ perfettoConsumerDump s b = perfettoConsumerDump s true
    ∧ PerfettoDumpLine.possibleDeadlock ∉ perfettoConsumerDump s b := by
  refine ⟨?_, ?_, rfl, ?_⟩
  · cases b <;> simp [controllerDump, hrep]
    split <;> simp
  · cases b <;> simp [controllerDump] <;> split <;> simp
  · simp only [perfettoConsumerDump, List.mem_append, List.mem_flatMap]
    intro hmem
    rcases hmem with ((h1 | h2) | h3) | h4
    · simp at h1
    · rcases h2 with ⟨x, hx, hmem2⟩
      simp at hmem2
    · revert h3
      split <;> simp
    · simp at h4

/-- Witness for dump_try_lock_behavior at a failing try-lock, an empty
package report and the initial tracker state. -/
theorem dump_try_lock_behavior_witness :
    (ControllerDumpLine.possibleDeadlock
        ∈ controllerDump { lastRunNs := 0, activitiesLastCompiled := 0 } false [] ↔
      false = false)
    ∧ ControllerDumpLine.activitiesLastCompiled 0
        ∈ controllerDump { lastRunNs := 0, activitiesLastCompiled := 0 } false []
    ∧ perfettoConsumerDump TrackerState.initial false
        = perfettoConsumerDump TrackerState.initial true
    ∧ PerfettoDumpLine.possibleDeadlock ∉ perfettoConsumerDump TrackerState.initial false :=
  dump_try_lock_behavior { lastRunNs := 0, activitiesLastCompiled := 0 } false []
    TrackerState.initial (by decide)

/-- C5 counterexample: with min_traces = 0 the evidence check passes, yet
when the output directory cannot be created the run returns failure with
the counter already incremented and no compiler child ever spawned — a
compile is not always attempted. -/
def c5Params : ControllerParameters :=
  { recompile := true, minTraces := 0, outputText := false
    inodeTextcache := none, verbose := false }

def c5Env : ActivityCompileEnv :=
  { outputFileExists := false
    selectActivity := some 7
    histories := []
    selectRawTraceByHistoryId := fun _ => none
    mkdirOk := false
    forkOk := true
    childWstatus := 0
    insertOk := true }

theorem evidence_threshold_mkdir_failure :
    c5Params.minTraces = 0
    ∧ (compileActivity c5Params 1 "pkg" "act" 2 c5Env World.initial).map
        (fun r => (r.1, r.2.spawnedCompiles, r.2.jobInfo.activitiesLastCompiled,
          r.2.insertedPrefetchFiles))
      = some (false, 0, 1, []) := by
  refine ⟨rfl, rfl⟩

/-- C5 (amended): whenever the existing-output short-circuit is not taken
and the CompilationInput count is strictly below min_traces, the
per-activity compile returns failure with the world untouched (no counter
increment, no child spawned, no PrefetchFile row); with min_traces = 0 the
evidence check never fails, and a compile is attempted (a child is
spawned) provided the activity resolves, the output directory is created
and fork succeeds. -/
theorem evidence_threshold_gate (params : ControllerParameters) (packageId : Int)
    (packageName activityName : String) (version : Int)
    (env : ActivityCompileEnv) (w : World) :
    ((!params.recompile && env.outputFileExists) = false →
      (getPerfettoTraceInfo env.selectRawTraceByHistoryId env.histories).length
        < params.minTraces →
      compileActivity params packageId packageName activityName version env w
        = some (false, w))
    ∧ (params.minTraces = 0 →
      (!params.recompile && env.outputFileExists) = false →
      env.selectActivity.isSome = true →
      env.mkdirOk = true → env.forkOk = true →
      (compileActivity params packageId packageName activityName version env w).map
        (fun r => r.2.spawnedCompiles) = some (w.spawnedCompiles + 1)) := by
  constructor
  · intro hsc hlt
    unfold compileActivity
    rw [hsc]
    simp only [Bool.false_eq_true, if_false]
    cases env.selectActivity with
    | none => rfl
    | some activityId => simp [hlt]
  · intro hmin hsc hact hmkdir hfork
    unfold compileActivity startViaFork
    rw [hsc]
    simp only [Bool.false_eq_true, if_false]
    cases hsa : env.selectActivity with
    | none => rw [hsa] at hact; simp at hact
    | some activityId =>
      simp only [hmin, Nat.not_lt_zero, if_false, hmkdir, hfork,
        Bool.not_true, Bool.false_eq_true, ite_false]
      by_cases he : wifexited env.childWstatus <;>
        by_cases hi : env.insertOk <;>
        simp [he, hi]

/-- Witness for evidence_threshold_gate: an environment short of traces
for the first clause, and one with min_traces = 0 and a working mkdir and
fork for the second clause. -/
def c5ParamsHigh : ControllerParameters :=
  { recompile := true, minTraces := 3, outputText := false
    inodeTextcache := none, verbose := false }

def c5EnvOk : ActivityCompileEnv :=
  { c5Env with mkdirOk := true }

theorem evidence_threshold_gate_witness :
    compileActivity c5ParamsHigh 1 "pkg" "act" 2 c5Env World.initial
      = some (false, World.initial)
    ∧ (compileActivity c5Params 1 "pkg" "act" 2 c5EnvOk World.initial).map
        (fun r => r.2.spawnedCompiles) = some (World.initial.spawnedCompiles + 1) :=
  ⟨(evidence_threshold_gate c5ParamsHigh 1 "pkg" "act" 2 c5Env World.initial).1
      rfl (by decide),
   (evidence_threshold_gate c5Params 1 "pkg" "act" 2 c5EnvOk World.initial).2
      rfl rfl rfl rfl rfl⟩

/-- C7 counterexample: the package resolves but the activity does not, yet
with recompile disabled and the derived output file already existing on
disk the per-activity entry point returns success without consulting the
activity table. -/
def c7Params : ControllerParameters :=
  { recompile := false, minTraces := 3, outputText := false
    inodeTextcache := none, verbose := false }

def c7Env : ActivityCompileEnv :=
  { outputFileExists := true
    selectActivity := none
    histories := []
    selectRawTraceByHistoryId := fun _ => none
    mkdirOk := true
    forkOk := true
    childWstatus := 0
    insertOk := true }

theorem single_activity_entry_missing_activity_success :
    c7Env.selectActivity = none
    ∧ compileSingleActivityEntry c7Params "pkg" "act" 1 (some 5) c7Env World.initial
        = some (true, World.initial) := by
  refine ⟨rfl, rfl⟩

/-- C7 (amended): the per-activity entry point fails when the package is
not in the store; when the package resolves but the activity does not, it
fails as well — unless recompile is disabled and the derived output file
already exists on disk, in which case it returns success without
consulting the activity table. -/
theorem single_activity_entry_failures (params : ControllerParameters)
    (packageName activityName : String) (version : Int)
    (selectPackage : Option Int) (env : ActivityCompileEnv) (w : World) :
    (selectPackage = none →
      compileSingleActivityEntry params packageName activityName version
        selectPackage env w = some (false, w))
    ∧ (∀ packageId, selectPackage = some packageId →
      env.selectActivity = none →
      (!params.recompile && env.outputFileExists) = false →
      compileSingleActivityEntry params packageName activityName version
        selectPackage env w = some (false, w)) := by
  constructor
  · intro hnone
    simp [compileSingleActivityEntry, hnone]
  · intro packageId hsome hact hsc
    simp only [compileSingleActivityEntry, hsome]
    unfold compileActivity
    rw [hsc, hact]
    simp

/-- Witness for single_activity_entry_failures: a missing package, and a
resolved package with a missing activity and no output file on disk. -/
def c7EnvNoFile : ActivityCompileEnv :=
  { c7Env with outputFileExists := false }

theorem single_activity_entry_failures_witness :
    compileSingleActivityEntry c7Params "pkg" "act" 1 none c7EnvNoFile World.initial
      = some (false, World.initial)
    ∧ compileSingleActivityEntry c7Params "pkg" "act" 1 (some 5) c7EnvNoFile World.initial
      = some (false, World.initial) :=
  ⟨(single_activity_entry_failures c7Params "pkg" "act" 1 none c7EnvNoFile
      World.initial).1 rfl,
   (single_activity_entry_failures c7Params "pkg" "act" 1 (some 5) c7EnvNoFile
      World.initial).2 5 rfl rfl rfl⟩

/-- Helper: one CompileActivity run increments the activities counter by
one exactly when it passes the evidence gate, and never touches
last_run_ns, whatever the child outcome. -/
theorem compileActivity_jobInfo (params : ControllerParameters) (packageId : Int)
    (packageName activityName : String) (version : Int)
    (env : ActivityCompileEnv) (w : World) (b : Bool) (w2 : World)
    (h : compileActivity params packageId packageName activityName version env w
      = some (b, w2)) :
    w2.jobInfo.activitiesLastCompiled =
      w.jobInfo.activitiesLastCompiled +
        (if evidencePassAttempted params env then 1 else 0)
    ∧ w2.jobInfo.lastRunNs = w.jobInfo.lastRunNs := by
  unfold compileActivity startViaFork at h
  unfold evidencePassAttempted
  by_cases hsc : (!params.recompile && env.outputFileExists) = true
  · simp only [hsc, if_true] at h
    obtain ⟨rfl, rfl⟩ : true = b ∧ w = w2 := by
      injection h with h1
      injection h1 with h1 h2
      exact ⟨h1, h2⟩
    simp [hsc]
  · simp only [hsc, Bool.false_eq_true, if_false] at h
    rw [Bool.not_eq_true] at hsc
    cases hsa : env.selectActivity with
    | none =>
      rw [hsa] at h
      obtain ⟨rfl, rfl⟩ : false = b ∧ w = w2 := by
        injection h with h1
        injection h1 with h1 h2
        exact ⟨h1, h2⟩
      simp [hsc, hsa]
    | some activityId =>
      rw [hsa] at h
      by_cases hlt : (getPerfettoTraceInfo env.selectRawTraceByHistoryId
          env.histories).length < params.minTraces
      · simp only [hlt, if_true] at h
        obtain ⟨rfl, rfl⟩ : false = b ∧ w = w2 := by
          injection h with h1
          injection h1 with h1 h2
          exact ⟨h1, h2⟩
        simp [hsc, hsa, hlt]
      · simp only [hlt, if_false] at h
        have hpass : (!(!params.recompile && env.outputFileExists) &&
            (some activityId).isSome &&
            !decide ((getPerfettoTraceInfo env.selectRawTraceByHistoryId
              env.histories).length < params.minTraces)) = true := by
          simp [hsc, hlt]
        rw [hpass]
        by_cases hmk : env.mkdirOk
        · simp only [hmk, Bool.not_true, Bool.false_eq_true, if_false] at h
          by_cases hfk : env.forkOk
          · simp only [hfk, Bool.not_true, Bool.false_eq_true, if_false] at h
            by_cases he : wifexited env.childWstatus
            · simp only [he, Bool.not_true, Bool.false_eq_true, if_false] at h
              by_cases hins : env.insertOk
              · simp only [hins, Bool.not_true, Bool.false_eq_true, if_false] at h
                obtain ⟨rfl, rfl⟩ : true = b ∧ _ = w2 := by
                  injection h with h1
                  injection h1 with h1 h2
                  exact ⟨h1, h2⟩
                simp
              · simp only [hins, Bool.not_false, if_true] at h
                obtain ⟨rfl, rfl⟩ : false = b ∧ _ = w2 := by
                  injection h with h1
                  injection h1 with h1 h2
                  exact ⟨h1, h2⟩
                simp
            · simp only [he, Bool.not_false, if_true] at h
              obtain ⟨rfl, rfl⟩ : false = b ∧ _ = w2 := by
                injection h with h1
                injection h1 with h1 h2
                exact ⟨h1, h2⟩
              simp
          · simp only [hfk, Bool.not_false, if_true] at h
            exact absurd h (by simp)
        · simp only [hmk, Bool.not_false, if_true] at h
          obtain ⟨rfl, rfl⟩ : false = b ∧ _ = w2 := by
            injection h with h1
            injection h1 with h1 h2
            exact ⟨h1, h2⟩
          simp

/-- Helper: the CompilePackage activity loop adds to the activities
counter the number of its activities that pass the evidence gate, and
leaves last_run_ns alone. -/
theorem compileActivitiesLoop_jobInfo (params : ControllerParameters)
    (packageId : Int) (packageName : String) (version : Int)
    (acts : List (String × ActivityCompileEnv)) :
    ∀ (ret b : Bool) (w w2 : World),
    compileActivitiesLoop params packageId packageName version acts ret w
      = some (b, w2) →
    w2.jobInfo.activitiesLastCompiled =
      w.jobInfo.activitiesLastCompiled +
        (acts.filter (fun a => evidencePassAttempted params a.2)).length
    ∧ w2.jobInfo.lastRunNs = w.jobInfo.lastRunNs := by
  induction acts with
  | nil =>
    intro ret b w w2 h
    unfold compileActivitiesLoop at h
    obtain ⟨rfl, rfl⟩ : ret = b ∧ w = w2 := by
      injection h with h1
      injection h1 with h1 h2
      exact ⟨h1, h2⟩
    simp
  | cons a rest ih =>
    intro ret b w w2 h
    obtain ⟨activityName, env⟩ := a
    unfold compileActivitiesLoop at h
    cases hca : compileActivity params packageId packageName activityName version env w with
    | none => rw [hca] at h; exact absurd h (by simp)
    | some r =>
      rw [hca] at h
      obtain ⟨ok, w1⟩ := r
      have hact := compileActivity_jobInfo params packageId packageName activityName
        version env w ok w1 hca
      have hrest := ih (ret && ok) b w1 w2 h
      constructor
      · rw [hrest.1, hact.1, List.filter_cons]
        by_cases hp : evidencePassAttempted params env
        · simp only [hp, if_true, List.length_cons]
          omega
        · simp only [hp, Bool.false_eq_true, if_false]
          omega
      · rw [hrest.2, hact.2]

/-- Helper: CompilePackage adds attemptedCountPackage to the activities
counter and leaves last_run_ns alone. -/
theorem compilePackage_jobInfo (params : ControllerParameters)
    (packageName : String) (version : Int) (env : PackageCompileEnv)
    (b : Bool) (w w2 : World)
    (h : compilePackage params packageName version env w = some (b, w2)) :
    w2.jobInfo.activitiesLastCompiled =
      w.jobInfo.activitiesLastCompiled + attemptedCountPackage params env
    ∧ w2.jobInfo.lastRunNs = w.jobInfo.lastRunNs := by
  unfold compilePackage at h
  unfold attemptedCountPackage
  cases hsp : env.selectPackage with
  | none =>
    rw [hsp] at h
    obtain ⟨rfl, rfl⟩ : false = b ∧ w = w2 := by
      injection h with h1
      injection h1 with h1 h2
      exact ⟨h1, h2⟩
    simp
  | some packageId =>
    rw [hsp] at h
    exact compileActivitiesLoop_jobInfo params packageId packageName version
      env.activities true b w w2 h

/-- Helper: the device-wide package loop adds attemptedCountDevice to the
activities counter and leaves last_run_ns alone. -/
theorem compilePackagesLoop_jobInfo (params : ControllerParameters)
    (packages : List DevicePackage) :
    ∀ (ret b : Bool) (w w2 : World),
    compilePackagesLoop params packages ret w = some (b, w2) →
    w2.jobInfo.activitiesLastCompiled =
      w.jobInfo.activitiesLastCompiled + attemptedCountDevice params packages
    ∧ w2.jobInfo.lastRunNs = w.jobInfo.lastRunNs := by
  induction packages with
  | nil =>
    intro ret b w w2 h
    unfold compilePackagesLoop at h
    obtain ⟨rfl, rfl⟩ : ret = b ∧ w = w2 := by
      injection h with h1
      injection h1 with h1 h2
      exact ⟨h1, h2⟩
    simp [attemptedCountDevice]
  | cons p rest ih =>
    intro ret b w w2 h
    unfold compilePackagesLoop at h
    cases hcp : compilePackage params p.name p.version p.env w with
    | none => rw [hcp] at h; exact absurd h (by simp)
    | some r =>
      rw [hcp] at h
      obtain ⟨ok, w1⟩ := r
      have hpkg := compilePackage_jobInfo params p.name p.version p.env ok w w1 hcp
      have hrest := ih (ret && ok) b w1 w2 h
      constructor
      · rw [hrest.1, hpkg.1]
        simp only [attemptedCountDevice, List.map_cons, List.sum_cons]
        omega
      · rw [hrest.2, hpkg.2]

/-- C6: a device-wide compile pass leaves activities_last_compiled equal to
exactly the number of activities that passed the evidence gate and had a
compile attempted, independently of the initial counter value (it is
zeroed at the start) and of each child compiler outcome, and stamps
last_run_ns with the current time at the end of the pass regardless of the
aggregate result. -/
theorem device_pass_counter_and_stamp (params : ControllerParameters)
    (packages : List DevicePackage) (now : Nat) (w : World) (b : Bool) (w2 : World)
    (h : compileAppsOnDevice params packages now w = some (b, w2)) :
    w2.jobInfo.activitiesLastCompiled = attemptedCountDevice params packages
    ∧ w2.jobInfo.lastRunNs = now := by
  unfold compileAppsOnDevice at h
  dsimp only at h
  split at h
  · exact absurd h (by simp)
  case h_2 r ok w1 heq =>
    have hl := compilePackagesLoop_jobInfo params packages _ _ _ _ heq
    obtain ⟨rfl, rfl⟩ : ok = b ∧ _ = w2 := by
      injection h with h1
      injection h1 with h1 h2
      exact ⟨h1, h2⟩
    refine ⟨?_, rfl⟩
    have := hl.1
    simpa using this

/-- Witness for device_pass_counter_and_stamp: one package with one
activity that passes the evidence gate with min_traces = 0. -/
def c6Env : ActivityCompileEnv :=
  { outputFileExists := false
    selectActivity := some 3
    histories := []
    selectRawTraceByHistoryId := fun _ => none
    mkdirOk := true
    forkOk := true
    childWstatus := 0
    insertOk := true }

def c6Package : DevicePackage :=
  { name := "p", version := 1
    env := { selectPackage := some 1, activities := [("a", c6Env)] } }

def c6FinalWorld : World :=
  { jobInfo := { lastRunNs := 77, activitiesLastCompiled := 1 }
    spawnedCompiles := 1
    insertedPrefetchFiles := [(3, "p/a@1")] }

theorem device_pass_counter_and_stamp_witness :
    c6FinalWorld.jobInfo.activitiesLastCompiled = attemptedCountDevice c5Params [c6Package]
    ∧ c6FinalWorld.jobInfo.lastRunNs = 77 :=
  device_pass_counter_and_stamp c5Params [c6Package] 77 World.initial true
    c6FinalWorld (by rfl)

end Iorap
